import Mathlib

/-!
Shallow embedding of the multi-file orchestration routes of
`apps/api/app/api/routes/multifile.py` (analyze, join, merge, reference),
together with the external collaborator interfaces those routes consume.
The collaborators (engine loader, executor, storage lookup, response
envelope) are not part of the given source tree; their shapes are modelled
from the specification and kept abstract wherever the routes do not
inspect them.
-/

namespace LlmExcel

/-- Modelled from the spec: one loaded sheet of a file — its name and the
ordered sequence of column display names taken in column-key order
(the values of the per-sheet `columnKey → columnName` mapping). -/
structure Sheet where
  name : String
  columns : List String
deriving DecidableEq

/-- Modelled from the spec: one loaded file inside a `FileCollection`,
exposing its id, display filename and sheets. -/
structure LoadedFile where
  fid : String
  filename : String
  sheets : List Sheet
deriving DecidableEq

/-- Modelled from the spec: the request-scoped `FileCollection`; the list
order is the stable iteration order of the schema mapping returned by
`get_schemas()` (whose keys are the distinct file ids). -/
structure FileCollection where
  files : List LoadedFile
deriving DecidableEq

/-- Modelled from the spec: a `FileRef` owned by the storage collaborator:
`{id, owner identity, filename}`. Mirrors the fields of `app.models.file.File`
that the routes read (`user_id` and `filename`), with identifiers kept as
strings since the code compares `str(file.user_id) != str(user_id)`. -/
structure FileRec where
  id : String
  userId : String
  filename : String
deriving DecidableEq

/-- HTTP-level thrown error, i.e. `fastapi.HTTPException(status_code, detail)`. -/
structure HttpExc where
  status : Nat
  detail : String
deriving DecidableEq

/-- Python `str(e)` of a caught `HTTPException`, per starlette:
the status code, a colon and the detail. -/
def excStr (e : HttpExc) : String :=
  toString e.status ++ ": " ++ e.detail

/-- Modelled from the spec: the uniform response envelope `ApiResponse`
(`app.schemas.response`, not in the given tree): a code, a payload and a
message; business failures keep an HTTP-200 transport and signal failure
inside the payload. -/
structure ApiResponse (α : Type) where
  code : Nat := 200
  data : α
  msg : String := ""
deriving DecidableEq

/-- `RelationshipInfo` response model of `multifile.py`. -/
structure RelationshipInfo where
  source_file : String
  source_sheet : String
  source_column : String
  target_file : String
  target_sheet : String
  target_column : String
  relationship_type : String
deriving DecidableEq

/-- `FileSchema` response model of `multifile.py`: per sheet, the list of
column display names. -/
structure FileSchema where
  file_id : String
  filename : String
  sheets : List (String × List String)
deriving DecidableEq

/-- `MultiFileAnalysisResult` response model of `multifile.py`. -/
structure MultiFileAnalysisResult where
  file_schemas : List FileSchema
  relationships : List RelationshipInfo
  suggestions : List String
deriving DecidableEq

/-! ### The relationship analyzer (lines 184-244 of `multifile.py`) -/

/-- The `file_schemas` part of the analysis: for each file of the
collection, its id, filename, and per-sheet column names
(`list(columns.values())` in column-key order). -/
def fileSchemasOf (fc : FileCollection) : List FileSchema :=
  fc.files.map fun f =>
    { file_id := f.fid
      filename := f.filename
      sheets := f.sheets.map fun s => (s.name, s.columns) }

/-- `for i, x in enumerate(l): for y in l[i+1:]`: all ordered pairs of
list positions `i < j`, in traversal order. -/
def pairsAfter {α : Type} : List α → List (α × α)
  | [] => []
  | a :: l => (l.map fun b => (a, b)) ++ pairsAfter l

/-- The deterministic representative of
`set(t1.get_columns()).intersection(set(t2.get_columns()))`: the distinct
column names of the first sheet that also occur in the second. -/
def commonColumns (cols1 cols2 : List String) : List String :=
  cols1.dedup.filter fun c => c ∈ cols2

/-- The relationship records emitted for one ordered file pair: the full
cross product of the sheets of the two files, one `potential_join` record
per shared column name of a sheet pair. -/
def pairRelationships (f1 f2 : LoadedFile) : List RelationshipInfo :=
  f1.sheets.flatMap fun s1 =>
    f2.sheets.flatMap fun s2 =>
      (commonColumns s1.columns s2.columns).map fun c =>
        { source_file := f1.fid
          source_sheet := s1.name
          source_column := c
          target_file := f2.fid
          target_sheet := s2.name
          target_column := c
          relationship_type := "potential_join" }

/-- All relationships of an analysis call, accumulated over the file pairs
in traversal order. -/
def relationshipsOf (fc : FileCollection) : List RelationshipInfo :=
  (pairsAfter fc.files).flatMap fun p => pairRelationships p.1 p.2

/-- The unconditional per-pair suggestion string of line 235. -/
def pairSuggestion (f1 f2 : LoadedFile) : String :=
  "文件 '" ++ f1.filename ++ "' 和 '" ++ f2.filename ++ "' 可以通过共同列名进行关联"

/-- The fallback suggestion appended when no relationship was found. -/
def fallbackSuggestion : String :=
  "未发现明显的关联列，建议手动指定连接条件"

/-- The suggestion list of an analysis call: one per-pair message per file
pair, plus the fallback exactly when the relationship list is empty. -/
def suggestionsOf (fc : FileCollection) : List String :=
  ((pairsAfter fc.files).map fun p => pairSuggestion p.1 p.2) ++
    (if relationshipsOf fc = [] then [fallbackSuggestion] else [])

/-- The pure part of `analyze_multifile`, applied to the loaded collection. -/
def analyzeCore (fc : FileCollection) : MultiFileAnalysisResult :=
  { file_schemas := fileSchemasOf fc
    relationships := relationshipsOf fc
    suggestions := suggestionsOf fc }

/-! ### Request models (`multifile.py` lines 33-74) -/

/-- `JoinConditionRequest`. -/
structure JoinConditionRequest where
  left_column : String
  right_column : String
  operator : String := "="
deriving DecidableEq

/-- `JoinRequest`. The `conditions` field is required but its length is
not constrained by the model. -/
structure JoinRequest where
  left_file_id : String
  left_table : String
  right_file_id : String
  right_table : String
  join_type : String := "inner"
  conditions : List JoinConditionRequest
  output_sheet_name : String := "连接结果"
deriving DecidableEq

/-- `MergeRequest`. -/
structure MergeRequest where
  file_ids : List String
  tables : List String
  merge_type : String := "vertical"
  output_sheet_name : String := "合并结果"
deriving DecidableEq

/-- `CrossReferenceRequest`. -/
structure CrossReferenceRequest where
  source_file_id : String
  source_table : String
  source_column : String
  target_file_id : String
  target_table : String
  target_column : String
  reference_type : String := "copy"
  output_sheet_name : Option String := none
deriving DecidableEq

/-- `MultiFileAnalysisRequest`. -/
structure MultiFileAnalysisRequest where
  file_ids : List String
  analysis_type : String := "schema"
deriving DecidableEq

/-! ### Result models (`multifile.py` lines 80-107) -/

/-- `JoinResult` response model; optional fields default to `None`. -/
structure JoinResult where
  success : Bool
  output_file_id : Option String := none
  output_sheet_name : Option String := none
  row_count : Option Nat := none
  column_count : Option Nat := none
  error : Option String := none
deriving DecidableEq

/-- `MergeResult` response model. -/
structure MergeResult where
  success : Bool
  output_file_id : Option String := none
  output_sheet_name : Option String := none
  row_count : Option Nat := none
  column_count : Option Nat := none
  error : Option String := none
deriving DecidableEq

/-- `CrossReferenceResult` response model. -/
structure CrossReferenceResult where
  success : Bool
  target_file_id : Option String := none
  target_sheet_name : Option String := none
  target_column : Option String := none
  formula : Option String := none
  error : Option String := none
deriving DecidableEq

/-! ### Operation descriptors (`app.engine.models`, consumed by the routes) -/

/-- The dynamically shaped `output` value handed to an operation: either
the dict `\x7b"type": "new_sheet", "name": name\x7d` or the in-place marker. -/
inductive OutputSpec where
  | new_sheet (name : String)
  | in_place
deriving DecidableEq

/-- `JoinCondition` engine model. -/
structure JoinCondition where
  left_column : String
  right_column : String
  operator : String
deriving DecidableEq

/-- Modelled from the spec: the `JoinOperation` descriptor — the fields the
route passes through unchanged to the engine. -/
structure JoinOperation where
  left_file_id : String
  left_table : String
  right_file_id : String
  right_table : String
  join_type : String
  conditions : List JoinCondition
  output : OutputSpec
  description : String
deriving DecidableEq

/-- Modelled from the spec: the `MergeOperation` descriptor. -/
structure MergeOperation where
  file_ids : List String
  tables : List String
  merge_type : String
  output : OutputSpec
  description : String
deriving DecidableEq

/-- Modelled from the spec: the `CrossFileReferenceOperation` descriptor. -/
structure CrossFileReferenceOperation where
  source_file_id : String
  source_table : String
  source_column : String
  target_file_id : String
  target_table : String
  target_column : String
  reference_type : String
  output : OutputSpec
  description : String
deriving DecidableEq

/-- Modelled from the spec: the tagged union of operation descriptors the
executor accepts. -/
inductive Operation where
  | join (op : JoinOperation)
  | merge (op : MergeOperation)
  | crossRef (op : CrossFileReferenceOperation)
deriving DecidableEq

/-- Modelled from the spec: a result table of the engine, of which the
routes read only the row count (`len(df)`) and the column count
(`len(df.columns)`). -/
structure ResultTable where
  nrows : Nat
  ncols : Nat
deriving DecidableEq

/-- Modelled from the spec: the `ExecutionResult` of one engine batch —
ordered error messages, `newSheets : fileId → sheetName → table` and
generated formula strings. The mappings are association lists. -/
structure ExecutionResult where
  errors : List String
  new_sheets : List (String × List (String × ResultTable))
  excel_formulas : List String
deriving DecidableEq

/-- The lookup `fid in new_sheets and sname in new_sheets[fid]`. -/
def lookupSheet (ns : List (String × List (String × ResultTable)))
    (fid sname : String) : Option ResultTable :=
  match ns.lookup fid with
  | none => none
  | some m => m.lookup sname

/-- Row and column counts reported for an engine output: the table's
counts when the `(fileId, sheetName)` key is present, `(0, 0)` when it is
absent. -/
def sheetCounts : Option ResultTable → Nat × Nat
  | none => (0, 0)
  | some t => (t.nrows, t.ncols)

/-! ### Collaborator environment and traced effects -/

/-- One observable collaborator effect of a request: a call of the engine
table loader, or a call of the executor with its operation batch. -/
inductive Ev where
  | load (files : List FileRec)
  | engineExec (ops : List Operation)
deriving DecidableEq

/-- Modelled from the spec: the external collaborators a request consumes.
`parseUUID` is `uuid.UUID(s)` (error = the `ValueError` message),
`resolve` is `get_files_by_ids_from_db` of the storage component,
`loadTables` is `load_tables_from_files`, and `execute` is
`Executor(file_collection).execute(ops)`. -/
structure Env where
  parseUUID : String → Except String String
  resolve : List String → List FileRec
  loadTables : List FileRec → FileCollection
  execute : FileCollection → List Operation → ExecutionResult

/-- The comprehension `[UUID(fid) for fid in file_ids]`: parse all ids,
failing at the first malformed one with its `ValueError` message. -/
def parseAllIds (parse : String → Except String String) :
    List String → Except String (List String)
  | [] => .ok []
  | f :: fs =>
    match parse f with
    | .error e => .error e
    | .ok u => (parseAllIds parse fs).map (u :: ·)

/-- `validate_files_access` (lines 138-152): walk the resolved files and
raise 403 naming the first file whose owner differs from the caller. -/
def validateFilesAccess (userId : String) :
    List FileRec → Except HttpExc (List FileRec)
  | [] => .ok []
  | f :: fs =>
    if f.userId ≠ userId then
      .error { status := 403, detail := "无权访问文件: " ++ f.filename }
    else
      (validateFilesAccess userId fs).map (f :: ·)

/-- `load_file_collection` (lines 155-163): parse the raw ids (400 on the
first malformed one), check ownership (403 on the first offender), then —
and only then — call the engine loader. The second component is the trace
of collaborator effects. -/
def loadFileCollection (env : Env) (fileIds : List String) (userId : String) :
    Except HttpExc FileCollection × List Ev :=
  match parseAllIds env.parseUUID fileIds with
  | .error e =>
    (.error { status := 400, detail := "无效的 file_id 格式: " ++ e }, [])
  | .ok uuids =>
    match validateFilesAccess userId (env.resolve uuids) with
    | .error ex => (.error ex, [])
    | .ok files => (.ok (env.loadTables files), [.load files])

/-! ### Endpoint handlers (`multifile.py` lines 169-484)

Each handler wraps its whole body in `except Exception`, so a thrown
`HTTPException` from `load_file_collection` is caught there like any other
fault: `analyze_multifile` re-raises it as a 500 `HTTPException`, while the
three operation endpoints convert it into a `code=500` envelope. The only
fault source inside the modelled bodies is `load_file_collection`. -/

/-- `analyze_multifile` (lines 169-250): load, run the pure analysis, wrap
in the envelope; any caught fault is re-raised as HTTP 500 with the
message of the caught exception. -/
def analyzeMultifile (env : Env) (userId : String)
    (req : MultiFileAnalysisRequest) :
    Except HttpExc (ApiResponse MultiFileAnalysisResult) × List Ev :=
  match loadFileCollection env req.file_ids userId with
  | (.error e, evs) =>
    (.error { status := 500, detail := "分析失败: " ++ excStr e }, evs)
  | (.ok fc, evs) => (.ok { data := analyzeCore fc }, evs)

/-- The `JoinOperation` built by `join_files` (lines 280-289). -/
def joinOpOf (req : JoinRequest) : JoinOperation :=
  { left_file_id := req.left_file_id
    left_table := req.left_table
    right_file_id := req.right_file_id
    right_table := req.right_table
    join_type := req.join_type
    conditions := req.conditions.map fun c =>
      { left_column := c.left_column
        right_column := c.right_column
        operator := c.operator }
    output := .new_sheet req.output_sheet_name
    description := req.join_type ++ "连接 " ++ req.left_file_id ++ "." ++
      req.left_table ++ " 和 " ++ req.right_file_id ++ "." ++ req.right_table }

/-- `join_files` (lines 253-332): load both files, forward the join
operation, then either surface the joined engine errors as a `code=400`
failure envelope or report the output under the left file id with the
requested sheet name; a missing output key counts as zero rows and
columns. A caught fault yields a `code=500` failure envelope. -/
def joinFiles (env : Env) (userId : String) (req : JoinRequest) :
    ApiResponse JoinResult × List Ev :=
  match loadFileCollection env [req.left_file_id, req.right_file_id] userId with
  | (.error e, evs) =>
    ({ code := 500, data := { success := false, error := some (excStr e) },
       msg := "连接操作失败" }, evs)
  | (.ok fc, evs) =>
    let op := Operation.join (joinOpOf req)
    let result := env.execute fc [op]
    let evs := evs ++ [.engineExec [op]]
    if result.errors ≠ [] then
      ({ code := 400,
         data := { success := false,
                   error := some (String.intercalate "; " result.errors) },
         msg := "连接操作失败" }, evs)
    else
      let counts := sheetCounts
        (lookupSheet result.new_sheets req.left_file_id req.output_sheet_name)
      ({ data := { success := true
                   output_file_id := some req.left_file_id
                   output_sheet_name := some req.output_sheet_name
                   row_count := some counts.1
                   column_count := some counts.2 } }, evs)

/-- The `MergeOperation` built by `merge_files` (lines 366-372). -/
def mergeOpOf (req : MergeRequest) : MergeOperation :=
  { file_ids := req.file_ids
    tables := req.tables
    merge_type := req.merge_type
    output := .new_sheet req.output_sheet_name
    description := req.merge_type ++ "合并 " ++
      toString req.file_ids.length ++ " 个文件" }

/-- `merge_files` (lines 335-415): validate the two local business rules
before any collaborator call, then load, forward the merge operation and
normalize the result like `join_files`, reporting under the first file id
of the request list. -/
def mergeFiles (env : Env) (userId : String) (req : MergeRequest) :
    ApiResponse MergeResult × List Ev :=
  if req.file_ids.length ≠ req.tables.length then
    ({ code := 400,
       data := { success := false, error := some "file_ids 和 tables 长度必须相同" },
       msg := "参数错误" }, [])
  else if req.file_ids.length < 2 then
    ({ code := 400,
       data := { success := false, error := some "至少需要2个文件进行合并" },
       msg := "参数错误" }, [])
  else
    match loadFileCollection env req.file_ids userId with
    | (.error e, evs) =>
      ({ code := 500, data := { success := false, error := some (excStr e) },
         msg := "合并操作失败" }, evs)
    | (.ok fc, evs) =>
      let op := Operation.merge (mergeOpOf req)
      let result := env.execute fc [op]
      let evs := evs ++ [.engineExec [op]]
      if result.errors ≠ [] then
        ({ code := 400,
           data := { success := false,
                     error := some (String.intercalate "; " result.errors) },
           msg := "合并操作失败" }, evs)
      else
        let counts := sheetCounts
          (lookupSheet result.new_sheets (req.file_ids.headD "")
            req.output_sheet_name)
        ({ data := { success := true
                     output_file_id := some (req.file_ids.headD "")
                     output_sheet_name := some req.output_sheet_name
                     row_count := some counts.1
                     column_count := some counts.2 } }, evs)

/-- The output value built by `cross_file_reference` (lines 435-437):
Python truthiness makes both `None` and the empty string fall back to the
in-place marker. -/
def crossRefOutput (oname : Option String) : OutputSpec :=
  match oname with
  | none => .in_place
  | some n => if n = "" then .in_place else .new_sheet n

/-- The `CrossFileReferenceOperation` built by `cross_file_reference`
(lines 439-449). -/
def crossRefOpOf (req : CrossReferenceRequest) : CrossFileReferenceOperation :=
  { source_file_id := req.source_file_id
    source_table := req.source_table
    source_column := req.source_column
    target_file_id := req.target_file_id
    target_table := req.target_table
    target_column := req.target_column
    reference_type := req.reference_type
    output := crossRefOutput req.output_sheet_name
    description := "从 " ++ req.source_file_id ++ "." ++ req.source_table ++
      " 引用 " ++ req.source_column ++ " 到 " ++ req.target_file_id ++ "." ++
      req.target_table }

/-- `cross_file_reference` (lines 418-484): load source and target files,
forward the reference operation, surface joined engine errors as a
`code=400` failure envelope, otherwise report the target location and the
first generated formula when the reference type is `formula`. -/
def crossFileReference (env : Env) (userId : String)
    (req : CrossReferenceRequest) : ApiResponse CrossReferenceResult × List Ev :=
  match loadFileCollection env [req.source_file_id, req.target_file_id] userId with
  | (.error e, evs) =>
    ({ code := 500, data := { success := false, error := some (excStr e) },
       msg := "引用操作失败" }, evs)
  | (.ok fc, evs) =>
    let op := Operation.crossRef (crossRefOpOf req)
    let result := env.execute fc [op]
    let evs := evs ++ [.engineExec [op]]
    if result.errors ≠ [] then
      ({ code := 400,
         data := { success := false,
                   error := some (String.intercalate "; " result.errors) },
         msg := "引用操作失败" }, evs)
    else
      ({ data := { success := true
                   target_file_id := some req.target_file_id
                   target_sheet_name := some req.target_table
                   target_column := some req.target_column
                   formula := if req.reference_type = "formula" then
                     result.excel_formulas.head? else none } }, evs)

/-! ### Spec-side refinement target for the relationship count -/

/-- Modelled from the spec (refinement target, following the words of the
spec rather than the source): the number of relationship records predicted
for one ordered file pair — the sum, over the full cross product of the
two files' sheets, of the cardinality of the order-insensitive set
intersection of the sheets' column-name sets. -/
def specPairCount (f1 f2 : LoadedFile) : Nat :=
  (f1.sheets.map fun s1 =>
    (f2.sheets.map fun s2 =>
      (s1.columns.toFinset ∩ s2.columns.toFinset).card).sum).sum

/-! ### Concrete fixtures for witnesses and counterexamples -/

/-- A sample loaded file sharing the column `id` with `fileB`. -/
def fileA : LoadedFile :=
  { fid := "a", filename := "a.xlsx",
    sheets := [{ name := "S1", columns := ["id", "x"] }] }

/-- A second sample loaded file. -/
def fileB : LoadedFile :=
  { fid := "b", filename := "b.xlsx",
    sheets := [{ name := "T1", columns := ["id", "y"] }] }

/-- A two-file collection whose files share exactly the column `id`. -/
def fcW : FileCollection := ⟨[fileA, fileB]⟩

/-- Environment whose storage owns every file for user `u`, whose parse
always succeeds and whose engine reports no errors and produces no sheet. -/
def envOk : Env :=
  { parseUUID := fun s => .ok s
    resolve := fun ids => ids.map fun i =>
      { id := i, userId := "u", filename := i ++ ".xlsx" }
    loadTables := fun _ => ⟨[]⟩
    execute := fun _ _ => { errors := [], new_sheets := [], excel_formulas := [] } }

/-- Environment like `envOk` whose engine reports two errors. -/
def envErr : Env :=
  { parseUUID := fun s => .ok s
    resolve := fun ids => ids.map fun i =>
      { id := i, userId := "u", filename := i ++ ".xlsx" }
    loadTables := fun _ => ⟨[]⟩
    execute := fun _ _ =>
      { errors := ["第一个错误", "第二个错误"], new_sheets := [], excel_formulas := [] } }

/-- Environment whose storage owns every file for the user `other`. -/
def envOwn : Env :=
  { parseUUID := fun s => .ok s
    resolve := fun ids => ids.map fun i =>
      { id := i, userId := "other", filename := i ++ ".xlsx" }
    loadTables := fun _ => ⟨[]⟩
    execute := fun _ _ => { errors := [], new_sheets := [], excel_formulas := [] } }

/-- Environment whose identifier parse always raises a `ValueError`. -/
def envBadId : Env :=
  { parseUUID := fun _ => .error "badly formed hexadecimal UUID string"
    resolve := fun _ => []
    loadTables := fun _ => ⟨[]⟩
    execute := fun _ _ => { errors := [], new_sheets := [], excel_formulas := [] } }

/-- A join request with one condition. -/
def reqJoinW : JoinRequest :=
  { left_file_id := "a", left_table := "S1",
    right_file_id := "b", right_table := "T1",
    conditions := [{ left_column := "id", right_column := "id" }],
    output_sheet_name := "out" }

/-- A join request whose `conditions` list is empty. -/
def reqJoinNoCond : JoinRequest :=
  { left_file_id := "a", left_table := "S1",
    right_file_id := "b", right_table := "T1",
    conditions := [], output_sheet_name := "out" }

/-- A two-file merge request with matching table list. -/
def reqMergeW : MergeRequest :=
  { file_ids := ["a", "b"], tables := ["S1", "T1"], output_sheet_name := "m" }

/-- A merge request with mismatched lengths. -/
def reqMergeBad : MergeRequest :=
  { file_ids := ["a", "b", "c"], tables := ["S1", "T1"] }

/-- A cross-reference request without an output sheet name. -/
def reqRefW : CrossReferenceRequest :=
  { source_file_id := "a", source_table := "S1", source_column := "id",
    target_file_id := "b", target_table := "T1", target_column := "id" }

/-- A cross-reference request whose output sheet name is the empty string. -/
def reqRefEmptyName : CrossReferenceRequest :=
  { source_file_id := "a", source_table := "S1", source_column := "id",
    target_file_id := "b", target_table := "T1", target_column := "id",
    output_sheet_name := some "" }

/-- A cross-reference request with a non-empty output sheet name. -/
def reqRefNamed : CrossReferenceRequest :=
  { source_file_id := "a", source_table := "S1", source_column := "id",
    target_file_id := "b", target_table := "T1", target_column := "id",
    output_sheet_name := some "ref" }

/-- The single relationship record the analysis emits for `fcW`. -/
def relW : RelationshipInfo :=
  { source_file := "a", source_sheet := "S1", source_column := "id",
    target_file := "b", target_sheet := "T1", target_column := "id",
    relationship_type := "potential_join" }

/-! ### Helper lemmas -/

theorem commonColumns_toFinset (l1 l2 : List String) :
    (commonColumns l1 l2).toFinset = l1.toFinset ∩ l2.toFinset := by
  ext c
  simp [commonColumns, List.mem_dedup, List.mem_filter]

theorem commonColumns_nodup (l1 l2 : List String) :
    (commonColumns l1 l2).Nodup :=
  (l1.nodup_dedup).filter _

theorem commonColumns_length (l1 l2 : List String) :
    (commonColumns l1 l2).length = (l1.toFinset ∩ l2.toFinset).card := by
  rw [← commonColumns_toFinset,
    List.toFinset_card_of_nodup (commonColumns_nodup l1 l2)]

theorem len_flatMap {α β : Type} (l : List α) (f : α → List β) :
    (l.flatMap f).length = (l.map fun a => (f a).length).sum := by
  induction l with
  | nil => rfl
  | cons a l ih => simp [List.flatMap_cons, ih]

theorem pairsAfter_length {α : Type} (l : List α) :
    (pairsAfter l).length = l.length.choose 2 := by
  induction l with
  | nil => rfl
  | cons a l ih =>
    simp [pairsAfter, ih, Nat.choose_succ_succ, Nat.choose_one_right,
      Nat.add_comm]

theorem pairsAfter_mem {α : Type} {l : List α} {p : α × α}
    (hp : p ∈ pairsAfter l) :
    ∃ i j : Fin l.length, (i : Nat) < (j : Nat) ∧
      l.get i = p.1 ∧ l.get j = p.2 := by
  induction l with
  | nil => simp [pairsAfter] at hp
  | cons a l ih =>
    rcases List.mem_append.mp hp with h | h
    · obtain ⟨b, hb, hpb⟩ := List.mem_map.mp h
      obtain ⟨j, hj⟩ := List.mem_iff_get.mp hb
      refine ⟨⟨0, by simp⟩, ⟨j + 1, by simp [Nat.succ_lt_succ j.isLt]⟩,
        by simp, ?_, ?_⟩
      · simp [← hpb]
      · simpa [List.get_cons_succ] using hj.trans (by rw [← hpb])
    · obtain ⟨i, j, hij, h1, h2⟩ := ih h
      exact ⟨⟨i + 1, Nat.succ_lt_succ i.isLt⟩, ⟨j + 1, Nat.succ_lt_succ j.isLt⟩,
        Nat.succ_lt_succ hij, by simpa using h1, by simpa using h2⟩

theorem map_nodup_get_ne {α β : Type} {f : α → β} {l : List α}
    (h : (l.map f).Nodup) {i j : Fin l.length} (hij : (i : Nat) < (j : Nat)) :
    f (l.get i) ≠ f (l.get j) := by
  intro he
  simp only [List.get_eq_getElem] at he
  have : (i : Nat) = (j : Nat) := by
    have hi : ((i : Nat)) < (l.map f).length := by simp
    have hj : ((j : Nat)) < (l.map f).length := by simp
    have hm : (l.map f)[(i : Nat)] = (l.map f)[(j : Nat)] := by
      simpa [List.getElem_map] using he
    exact (h.getElem_inj_iff).mp hm
  omega

theorem pairRelationships_length (f1 f2 : LoadedFile) :
    (pairRelationships f1 f2).length = specPairCount f1 f2 := by
  unfold pairRelationships specPairCount
  rw [len_flatMap]
  refine congrArg List.sum (List.map_congr_left fun s1 _ => ?_)
  rw [len_flatMap]
  refine congrArg List.sum (List.map_congr_left fun s2 _ => ?_)
  rw [List.length_map, commonColumns_length]

/-! ### Claim theorems -/

/-- C4: for every loaded collection, the analysis emits exactly one
`potential_join` record per (sheet-of-file1, sheet-of-file2, shared column
name) triple over the full cross product of sheets and over all ordered
file pairs, with no deduplication: per file pair the record count equals
the sum over the sheet cross product of the cardinality of the column-name
set intersections, and the total count is the sum of those per-pair
counts. -/
theorem analysis_relationship_count :
    (∀ f1 f2 : LoadedFile,
      (pairRelationships f1 f2).length = specPairCount f1 f2) ∧
    ∀ fc : FileCollection,
      (analyzeCore fc).relationships.length =
        ((pairsAfter fc.files).map fun p => specPairCount p.1 p.2).sum := by
  refine ⟨pairRelationships_length, fun fc => ?_⟩
  show (relationshipsOf fc).length = _
  unfold relationshipsOf
  rw [len_flatMap]
  exact congrArg List.sum
    (List.map_congr_left fun p _ => pairRelationships_length p.1 p.2)

/-- C5: for every analysis call, the suggestion list is exactly one
per-pair message for each unordered pair of distinct input files (in
traversal order, regardless of shared columns) followed by exactly one
fallback message if and only if the relationship list is empty, so its
length is `choose n 2` plus one exactly when no relationship was found;
for zero or one input files the suggestions are exactly the single
fallback message and the relationships are empty. -/
theorem analysis_suggestion_shape :
    (∀ fc : FileCollection,
      (analyzeCore fc).suggestions =
        ((pairsAfter fc.files).map fun p => pairSuggestion p.1 p.2) ++
          (if (analyzeCore fc).relationships = [] then [fallbackSuggestion]
            else []) ∧
      (analyzeCore fc).suggestions.length =
        fc.files.length.choose 2 +
          (if (analyzeCore fc).relationships = [] then 1 else 0)) ∧
    (analyzeCore ⟨[]⟩).relationships = [] ∧
    (analyzeCore ⟨[]⟩).suggestions = [fallbackSuggestion] ∧
    ∀ f : LoadedFile,
      (analyzeCore ⟨[f]⟩).relationships = [] ∧
      (analyzeCore ⟨[f]⟩).suggestions = [fallbackSuggestion] := by
  have hshape : ∀ fc : FileCollection,
      (analyzeCore fc).suggestions =
        ((pairsAfter fc.files).map fun p => pairSuggestion p.1 p.2) ++
          (if (analyzeCore fc).relationships = [] then [fallbackSuggestion]
            else []) := fun fc => rfl
  refine ⟨fun fc => ⟨hshape fc, ?_⟩, ?_, ?_, fun f => ⟨?_, ?_⟩⟩
  · rw [hshape fc, List.length_append, List.length_map, pairsAfter_length]
    by_cases h : (analyzeCore fc).relationships = [] <;> simp [h]
  · rfl
  · rfl
  · simp [analyzeCore, relationshipsOf, pairsAfter]
  · simp [analyzeCore, suggestionsOf, relationshipsOf, pairsAfter]

/-- C10: every relationship record emitted by an analysis over a
collection with distinct file ids has equal source and target column
names, relationship type `potential_join`, distinct source and target file
ids, and its source file occurs strictly earlier than its target file in
the iteration order of the schema mapping. -/
theorem analysis_relationship_invariant (fc : FileCollection)
    (hnd : (fc.files.map LoadedFile.fid).Nodup) :
    ∀ r ∈ (analyzeCore fc).relationships,
      r.source_column = r.target_column ∧
      r.relationship_type = "potential_join" ∧
      r.source_file ≠ r.target_file ∧
      ∃ i j : Fin fc.files.length, (i : Nat) < (j : Nat) ∧
        (fc.files.get i).fid = r.source_file ∧
        (fc.files.get j).fid = r.target_file := by
  intro r hr
  have hr' : r ∈ (pairsAfter fc.files).flatMap
      fun p => pairRelationships p.1 p.2 := hr
  obtain ⟨p, hp, hrp⟩ := List.mem_flatMap.mp hr'
  obtain ⟨s1, _, hrs1⟩ := List.mem_flatMap.mp hrp
  obtain ⟨s2, _, hrs2⟩ := List.mem_flatMap.mp hrs1
  obtain ⟨c, _, hrc⟩ := List.mem_map.mp hrs2
  obtain ⟨i, j, hij, hi, hj⟩ := pairsAfter_mem hp
  have hsrc : r.source_file = p.1.fid := by rw [← hrc]
  have htgt : r.target_file = p.2.fid := by rw [← hrc]
  have hne : p.1.fid ≠ p.2.fid := by
    have := map_nodup_get_ne hnd hij
    rw [hi, hj] at this
    exact this
  refine ⟨by rw [← hrc], by rw [← hrc], ?_, i, j, hij, ?_, ?_⟩
  · rw [hsrc, htgt]; exact hne
  · rw [hsrc, hi]
  · rw [htgt, hj]

/-- Witness for C10 at a concrete two-file collection sharing one column. -/
theorem analysis_relationship_invariant_witness :
    (fcW.files.map LoadedFile.fid).Nodup ∧
    relW ∈ (analyzeCore fcW).relationships ∧
    (relW.source_column = relW.target_column ∧
      relW.relationship_type = "potential_join" ∧
      relW.source_file ≠ relW.target_file ∧
      ∃ i j : Fin fcW.files.length, (i : Nat) < (j : Nat) ∧
        (fcW.files.get i).fid = relW.source_file ∧
        (fcW.files.get j).fid = relW.target_file) :=
  ⟨by decide, by decide,
    analysis_relationship_invariant fcW (by decide) relW (by decide)⟩

/-- C3: a merge request whose id and table lists differ in length, or
which names fewer than two files, yields a structured failure envelope —
`success = false` with the length-mismatch message (checked first) or the
minimum-file-count message — and an empty collaborator trace: neither the
file loader nor the engine is ever invoked. -/
theorem merge_local_validation (env : Env) (userId : String)
    (req : MergeRequest)
    (h : req.file_ids.length ≠ req.tables.length ∨ req.file_ids.length < 2) :
    mergeFiles env userId req =
      ({ code := 400,
         data := { success := false,
                   error := some (if req.file_ids.length ≠ req.tables.length
                     then "file_ids 和 tables 长度必须相同"
                     else "至少需要2个文件进行合并") },
         msg := "参数错误" }, []) := by
  unfold mergeFiles
  by_cases hlen : req.file_ids.length ≠ req.tables.length
  · rw [if_pos hlen, if_pos hlen]
  · have hlt : req.file_ids.length < 2 := h.resolve_left (by simpa using hlen)
    rw [if_neg hlen, if_neg hlen, if_pos hlt]

/-- Witness for C3 at a concrete mismatched merge request. -/
theorem merge_local_validation_witness :
    (reqMergeBad.file_ids.length ≠ reqMergeBad.tables.length ∨
      reqMergeBad.file_ids.length < 2) ∧
    mergeFiles envOk "u" reqMergeBad =
      ({ code := 400,
         data := { success := false,
                   error := some (if reqMergeBad.file_ids.length ≠
                       reqMergeBad.tables.length
                     then "file_ids 和 tables 长度必须相同"
                     else "至少需要2个文件进行合并") },
         msg := "参数错误" }, []) :=
  ⟨by decide, merge_local_validation envOk "u" reqMergeBad (by decide)⟩

/-- C6: on an error-free engine execution, a join reports its output under
the left file id and a merge under the first file id of the request list,
both with the requested output sheet name and `success = true`; the
reported row and column counts come from `sheetCounts` of the
`(fileId, sheetName)` lookup in the engine's `new_sheets`, and
`sheetCounts` of an absent key is `(0, 0)` rather than an error. -/
theorem success_output_policy (env : Env) (userId : String)
    (reqJ : JoinRequest) (reqM : MergeRequest)
    (fcJ fcM : FileCollection) (evJ evM : List Ev)
    (hJload : loadFileCollection env [reqJ.left_file_id, reqJ.right_file_id]
        userId = (.ok fcJ, evJ))
    (hJerr : (env.execute fcJ [.join (joinOpOf reqJ)]).errors = [])
    (hMlen : reqM.file_ids.length = reqM.tables.length)
    (hM2 : 2 ≤ reqM.file_ids.length)
    (hMload : loadFileCollection env reqM.file_ids userId = (.ok fcM, evM))
    (hMerr : (env.execute fcM [.merge (mergeOpOf reqM)]).errors = []) :
    sheetCounts none = (0, 0) ∧
    (joinFiles env userId reqJ).1 =
      { data := { success := true
                  output_file_id := some reqJ.left_file_id
                  output_sheet_name := some reqJ.output_sheet_name
                  row_count := some (sheetCounts (lookupSheet
                    (env.execute fcJ [.join (joinOpOf reqJ)]).new_sheets
                    reqJ.left_file_id reqJ.output_sheet_name)).1
                  column_count := some (sheetCounts (lookupSheet
                    (env.execute fcJ [.join (joinOpOf reqJ)]).new_sheets
                    reqJ.left_file_id reqJ.output_sheet_name)).2 } } ∧
    (mergeFiles env userId reqM).1 =
      { data := { success := true
                  output_file_id := some (reqM.file_ids.headD "")
                  output_sheet_name := some reqM.output_sheet_name
                  row_count := some (sheetCounts (lookupSheet
                    (env.execute fcM [.merge (mergeOpOf reqM)]).new_sheets
                    (reqM.file_ids.headD "") reqM.output_sheet_name)).1
                  column_count := some (sheetCounts (lookupSheet
                    (env.execute fcM [.merge (mergeOpOf reqM)]).new_sheets
                    (reqM.file_ids.headD "") reqM.output_sheet_name)).2 } } ∧
    (mergeFiles env userId reqM).1.data.output_file_id =
      reqM.file_ids.head? := by
  have hC : (mergeFiles env userId reqM).1 =
      { data := { success := true
                  output_file_id := some (reqM.file_ids.headD "")
                  output_sheet_name := some reqM.output_sheet_name
                  row_count := some (sheetCounts (lookupSheet
                    (env.execute fcM [.merge (mergeOpOf reqM)]).new_sheets
                    (reqM.file_ids.headD "") reqM.output_sheet_name)).1
                  column_count := some (sheetCounts (lookupSheet
                    (env.execute fcM [.merge (mergeOpOf reqM)]).new_sheets
                    (reqM.file_ids.headD "") reqM.output_sheet_name)).2 } } := by
    unfold mergeFiles
    rw [if_neg (by omega : ¬reqM.file_ids.length ≠ reqM.tables.length),
      if_neg (by omega : ¬reqM.file_ids.length < 2), hMload]
    simp [hMerr]
  refine ⟨rfl, ?_, hC, ?_⟩
  · unfold joinFiles
    rw [hJload]
    simp [hJerr]
  · rw [hC]
    rcases hx : reqM.file_ids with _ | ⟨a, t⟩
    · rw [hx] at hM2; simp at hM2
    · simp

/-- Witness for C6 at a concrete environment whose engine result has no
errors and no output sheet, so the absent-key default is reported. -/
theorem success_output_policy_witness :
    loadFileCollection envOk [reqJoinW.left_file_id, reqJoinW.right_file_id]
        "u" = (.ok ⟨[]⟩,
          [.load [{ id := "a", userId := "u", filename := "a.xlsx" },
                  { id := "b", userId := "u", filename := "b.xlsx" }]]) ∧
    (envOk.execute ⟨[]⟩ [.join (joinOpOf reqJoinW)]).errors = [] ∧
    reqMergeW.file_ids.length = reqMergeW.tables.length ∧
    2 ≤ reqMergeW.file_ids.length ∧
    loadFileCollection envOk reqMergeW.file_ids "u" = (.ok ⟨[]⟩,
      [.load [{ id := "a", userId := "u", filename := "a.xlsx" },
              { id := "b", userId := "u", filename := "b.xlsx" }]]) ∧
    (envOk.execute ⟨[]⟩ [.merge (mergeOpOf reqMergeW)]).errors = [] ∧
    (joinFiles envOk "u" reqJoinW).1 =
      { data := { success := true
                  output_file_id := some "a"
                  output_sheet_name := some "out"
                  row_count := some 0
                  column_count := some 0 } } ∧
    (mergeFiles envOk "u" reqMergeW).1.data.output_file_id =
      reqMergeW.file_ids.head? := by
  have h := success_output_policy envOk "u" reqJoinW reqMergeW ⟨[]⟩ ⟨[]⟩
    [.load [{ id := "a", userId := "u", filename := "a.xlsx" },
            { id := "b", userId := "u", filename := "b.xlsx" }]]
    [.load [{ id := "a", userId := "u", filename := "a.xlsx" },
            { id := "b", userId := "u", filename := "b.xlsx" }]]
    rfl rfl rfl (by decide) rfl rfl
  exact ⟨rfl, rfl, rfl, by decide, rfl, rfl, h.2.1, h.2.2.2⟩

/-- C7: whenever the engine result of a join, merge or cross-reference
execution carries at least one error message, the endpoint returns a single
structured failure envelope — `success = false`, the error string equal to
all engine error messages joined with a semicolon separator in order, and
every output field left unpopulated. -/
theorem engine_errors_joined (env : Env) (userId : String)
    (reqJ : JoinRequest) (reqM : MergeRequest) (reqC : CrossReferenceRequest)
    (fcJ fcM fcC : FileCollection) (evJ evM evC : List Ev)
    (hJload : loadFileCollection env [reqJ.left_file_id, reqJ.right_file_id]
        userId = (.ok fcJ, evJ))
    (hJerr : (env.execute fcJ [.join (joinOpOf reqJ)]).errors ≠ [])
    (hMlen : reqM.file_ids.length = reqM.tables.length)
    (hM2 : 2 ≤ reqM.file_ids.length)
    (hMload : loadFileCollection env reqM.file_ids userId = (.ok fcM, evM))
    (hMerr : (env.execute fcM [.merge (mergeOpOf reqM)]).errors ≠ [])
    (hCload : loadFileCollection env
        [reqC.source_file_id, reqC.target_file_id] userId = (.ok fcC, evC))
    (hCerr : (env.execute fcC [.crossRef (crossRefOpOf reqC)]).errors ≠ []) :
    (joinFiles env userId reqJ).1 =
      { code := 400,
        data := { success := false,
                  error := some (String.intercalate "; "
                    (env.execute fcJ [.join (joinOpOf reqJ)]).errors) },
        msg := "连接操作失败" } ∧
    (mergeFiles env userId reqM).1 =
      { code := 400,
        data := { success := false,
                  error := some (String.intercalate "; "
                    (env.execute fcM [.merge (mergeOpOf reqM)]).errors) },
        msg := "合并操作失败" } ∧
    (crossFileReference env userId reqC).1 =
      { code := 400,
        data := { success := false,
                  error := some (String.intercalate "; "
                    (env.execute fcC [.crossRef (crossRefOpOf reqC)]).errors) },
        msg := "引用操作失败" } := by
  refine ⟨?_, ?_, ?_⟩
  · unfold joinFiles
    rw [hJload]
    simp [hJerr]
  · unfold mergeFiles
    rw [if_neg (by omega : ¬reqM.file_ids.length ≠ reqM.tables.length),
      if_neg (by omega : ¬reqM.file_ids.length < 2), hMload]
    simp [hMerr]
  · unfold crossFileReference
    rw [hCload]
    simp [hCerr]

/-- Witness for C7 at a concrete engine reporting two error messages. -/
theorem engine_errors_joined_witness :
    (envErr.execute ⟨[]⟩ [.join (joinOpOf reqJoinW)]).errors ≠ [] ∧
    (joinFiles envErr "u" reqJoinW).1 =
      { code := 400,
        data := { success := false,
                  error := some "第一个错误; 第二个错误" },
        msg := "连接操作失败" } ∧
    (mergeFiles envErr "u" reqMergeW).1.data.error =
      some "第一个错误; 第二个错误" ∧
    (crossFileReference envErr "u" reqRefW).1.data.error =
      some "第一个错误; 第二个错误" := by
  have h := engine_errors_joined envErr "u" reqJoinW reqMergeW reqRefW
    ⟨[]⟩ ⟨[]⟩ ⟨[]⟩
    [.load [{ id := "a", userId := "u", filename := "a.xlsx" },
            { id := "b", userId := "u", filename := "b.xlsx" }]]
    [.load [{ id := "a", userId := "u", filename := "a.xlsx" },
            { id := "b", userId := "u", filename := "b.xlsx" }]]
    [.load [{ id := "a", userId := "u", filename := "a.xlsx" },
            { id := "b", userId := "u", filename := "b.xlsx" }]]
    rfl (by decide) rfl (by decide) rfl (by decide) rfl (by decide)
  refine ⟨by decide, ?_, ?_, ?_⟩
  · rw [h.1]; rfl
  · rw [h.2.1]; rfl
  · rw [h.2.2]; rfl

/-- C8 counterexample: a concrete join request with an empty conditions
list is accepted — the endpoint forwards a zero-condition join operation
to the engine and answers with a success envelope. -/
theorem join_empty_conditions_counterexample :
    reqJoinNoCond.conditions = [] ∧
    (joinOpOf reqJoinNoCond).conditions = [] ∧
    (joinFiles envOk "u" reqJoinNoCond).2 =
      [.load [{ id := "a", userId := "u", filename := "a.xlsx" },
              { id := "b", userId := "u", filename := "b.xlsx" }],
       .engineExec [.join (joinOpOf reqJoinNoCond)]] ∧
    (joinFiles envOk "u" reqJoinNoCond).1.data.success = true :=
  ⟨rfl, rfl, rfl, rfl⟩

/-- C8 as amended: a join request must carry a conditions field, but its
length is never checked — once loading succeeds the endpoint always calls
the engine with exactly one join operation whose condition list mirrors
the request's condition list, so an empty list is forwarded as a
zero-condition join operation. -/
theorem join_conditions_passthrough (env : Env) (userId : String)
    (req : JoinRequest) (fc : FileCollection) (evs : List Ev)
    (hload : loadFileCollection env [req.left_file_id, req.right_file_id]
        userId = (.ok fc, evs)) :
    (joinFiles env userId req).2 =
      evs ++ [.engineExec [.join (joinOpOf req)]] ∧
    (joinOpOf req).conditions = req.conditions.map (fun c =>
      { left_column := c.left_column, right_column := c.right_column,
        operator := c.operator }) ∧
    (req.conditions = [] → (joinOpOf req).conditions = []) := by
  refine ⟨?_, rfl, fun h => by simp [joinOpOf, h]⟩
  unfold joinFiles
  rw [hload]
  by_cases herr : (env.execute fc [.join (joinOpOf req)]).errors = [] <;>
    simp [herr]

/-- Witness for the amended C8 at a concrete zero-condition request. -/
theorem join_conditions_passthrough_witness :
    loadFileCollection envOk
        [reqJoinNoCond.left_file_id, reqJoinNoCond.right_file_id] "u" =
      (.ok ⟨[]⟩,
        [.load [{ id := "a", userId := "u", filename := "a.xlsx" },
                { id := "b", userId := "u", filename := "b.xlsx" }]]) ∧
    (joinFiles envOk "u" reqJoinNoCond).2 =
      [.load [{ id := "a", userId := "u", filename := "a.xlsx" },
              { id := "b", userId := "u", filename := "b.xlsx" }]] ++
        [.engineExec [.join (joinOpOf reqJoinNoCond)]] :=
  ⟨rfl,
    (join_conditions_passthrough envOk "u" reqJoinNoCond ⟨[]⟩
      [.load [{ id := "a", userId := "u", filename := "a.xlsx" },
              { id := "b", userId := "u", filename := "b.xlsx" }]] rfl).1⟩

/-- C9 counterexample: a cross-reference request whose output sheet name
is present but equal to the empty string produces the in-place output
marker, not a new-sheet output carrying the requested (empty) name, and
that in-place operation is what reaches the engine. -/
theorem crossref_empty_name_counterexample :
    reqRefEmptyName.output_sheet_name = some "" ∧
    (crossRefOpOf reqRefEmptyName).output = OutputSpec.in_place ∧
    OutputSpec.in_place ≠ OutputSpec.new_sheet "" ∧
    (crossFileReference envOk "u" reqRefEmptyName).2 =
      [.load [{ id := "a", userId := "u", filename := "a.xlsx" },
              { id := "b", userId := "u", filename := "b.xlsx" }],
       .engineExec [.crossRef (crossRefOpOf reqRefEmptyName)]] :=
  ⟨rfl, rfl, by decide, rfl⟩

/-- C9 as amended: the cross-reference operation's output specification is
the in-place marker when the output sheet name is absent or the empty
string (Python truthiness), and a new-sheet output carrying exactly the
requested name when a non-empty name is given; no other variant exists,
and the operation forwarded to the engine is exactly that descriptor. -/
theorem crossref_output_policy (env : Env) (userId : String)
    (req : CrossReferenceRequest) (fc : FileCollection) (evs : List Ev)
    (hload : loadFileCollection env
        [req.source_file_id, req.target_file_id] userId = (.ok fc, evs)) :
    (crossFileReference env userId req).2 =
      evs ++ [.engineExec [.crossRef (crossRefOpOf req)]] ∧
    (req.output_sheet_name = none →
      (crossRefOpOf req).output = .in_place) ∧
    (req.output_sheet_name = some "" →
      (crossRefOpOf req).output = .in_place) ∧
    (∀ n : String, req.output_sheet_name = some n → n ≠ "" →
      (crossRefOpOf req).output = .new_sheet n) ∧
    ((crossRefOpOf req).output = .in_place ∨
      ∃ n : String, req.output_sheet_name = some n ∧ n ≠ "" ∧
        (crossRefOpOf req).output = .new_sheet n) := by
  refine ⟨?_, ?_, ?_, ?_, ?_⟩
  · unfold crossFileReference
    rw [hload]
    by_cases herr :
        (env.execute fc [.crossRef (crossRefOpOf req)]).errors = [] <;>
      simp [herr]
  · intro h; simp [crossRefOpOf, crossRefOutput, h]
  · intro h; simp [crossRefOpOf, crossRefOutput, h]
  · intro n h hne; simp [crossRefOpOf, crossRefOutput, h, hne]
  · rcases hn : req.output_sheet_name with _ | n
    · exact Or.inl (by simp [crossRefOpOf, crossRefOutput, hn])
    · by_cases hne : n = ""
      · exact Or.inl (by simp [crossRefOpOf, crossRefOutput, hn, hne])
      · exact Or.inr ⟨n, rfl, hne,
          by simp [crossRefOpOf, crossRefOutput, hn, hne]⟩

/-- Witness for the amended C9 at a request with a non-empty output name. -/
theorem crossref_output_policy_witness :
    loadFileCollection envOk
        [reqRefNamed.source_file_id, reqRefNamed.target_file_id] "u" =
      (.ok ⟨[]⟩,
        [.load [{ id := "a", userId := "u", filename := "a.xlsx" },
                { id := "b", userId := "u", filename := "b.xlsx" }]]) ∧
    (crossRefOpOf reqRefNamed).output = OutputSpec.new_sheet "ref" ∧
    (crossRefOpOf reqRefW).output = OutputSpec.in_place := by
  have h := crossref_output_policy envOk "u" reqRefNamed ⟨[]⟩
    [.load [{ id := "a", userId := "u", filename := "a.xlsx" },
            { id := "b", userId := "u", filename := "b.xlsx" }]] rfl
  have h2 := crossref_output_policy envOk "u" reqRefW ⟨[]⟩
    [.load [{ id := "a", userId := "u", filename := "a.xlsx" },
            { id := "b", userId := "u", filename := "b.xlsx" }]] rfl
  exact ⟨rfl, h.2.2.2.1 "ref" rfl (by decide), h2.2.1 rfl⟩

/-- C1 (code-bug evidence): for a join request naming two files owned by
another user, the ownership check does raise a 403 naming the first
offending file before any load or engine call (the collaborator trace is
empty), but the endpoint's blanket exception handler swallows it and the
request ends as an envelope with code 500 and `success = false` instead
of failing with the protocol-level 403. -/
theorem join_ownership_error_swallowed :
    validateFilesAccess "u" (envOwn.resolve ["a", "b"]) =
      .error { status := 403, detail := "无权访问文件: a.xlsx" } ∧
    (joinFiles envOwn "u" reqJoinW).2 = [] ∧
    (joinFiles envOwn "u" reqJoinW).1.code = 500 ∧
    (joinFiles envOwn "u" reqJoinW).1.data.success = false ∧
    (joinFiles envOwn "u" reqJoinW).1.data.error =
      some "403: 无权访问文件: a.xlsx" :=
  ⟨rfl, rfl, rfl, rfl, rfl⟩

/-- C2 (code-bug evidence): a malformed file identifier makes
`load_file_collection` raise a 400 before any ownership check, load or
engine call (empty collaborator trace), but the endpoints' blanket
exception handlers turn it into a thrown 500 (analyze) or a code-500
envelope (join), and the merge endpoint even runs its business-rule
length validation before the identifier is ever parsed. -/
theorem malformed_id_rejected_as_500 :
    loadFileCollection envBadId ["not-a-uuid"] "u" =
      (.error { status := 400
                detail := "无效的 file_id 格式: badly formed hexadecimal UUID string" },
       []) ∧
    (analyzeMultifile envBadId "u" { file_ids := ["not-a-uuid"] }).1 =
      .error { status := 500
               detail := "分析失败: 400: 无效的 file_id 格式: badly formed hexadecimal UUID string" } ∧
    (analyzeMultifile envBadId "u" { file_ids := ["not-a-uuid"] }).2 = [] ∧
    (joinFiles envBadId "u" reqJoinW).1.code = 500 ∧
    (joinFiles envBadId "u" reqJoinW).2 = [] ∧
    (mergeFiles envBadId "u"
        { file_ids := ["not-a-uuid"], tables := [] }).1.data.error =
      some "file_ids 和 tables 长度必须相同" :=
  ⟨rfl, rfl, rfl, rfl, rfl, rfl⟩

end LlmExcel
